import Mathlib

/-!
Verification development for the core of an AMQP 0.9.1 client library
(amiquip slice: `src/channel.rs`, `src/io_loop/content_collector.rs`,
`src/io_loop/io_loop_handle.rs`, `src/queue.rs`).

The Rust sources are shallowly embedded: pure state-machine code becomes
Lean functions on explicit state, `Result<T>` becomes `Except ErrorKind T`,
`Vec<u8>` becomes `List Nat`, machine integers become `Nat` (sizes here are
compared and added, never wrapped), and a call that can panic is modelled by
`RustOutcome`.  Sends to the I/O loop thread are modelled as an explicit
list of emitted messages.
-/

namespace Amiquip

/-- A subset of the error kinds of the crate (`ErrorKind` in the crate root;
only the variants the embedded files construct are needed). -/
inductive ErrorKind
  | frameUnexpected
  | serverClosedChannel (id : Nat) (code : Nat) (text : String)
  | channelDropped (id : Nat)
  | eventLoopDropped
  deriving DecidableEq, Repr

/-- Basic properties of a message (`AmqpProperties`).  The collector and the
channel only pass these through, so they are modelled as an opaque record of
key/value fields. -/
structure AmqpProperties where
  fields : List (String × String) := []
  deriving DecidableEq, Repr

/-- `amq_protocol::protocol::basic::Deliver`: the content-bearing method
that starts a delivery. -/
structure Deliver where
  consumer_tag : String
  delivery_tag : Nat
  redelivered : Bool
  exchange : String
  routing_key : String
  deriving DecidableEq, Repr

/-- `amq_protocol::frame::AMQPContentHeader`. -/
structure AMQPContentHeader where
  class_id : Nat
  weight : Nat
  body_size : Nat
  properties : AmqpProperties
  deriving DecidableEq, Repr

/-- Modelled from the spec: the `Delivery` record (its source file is not in
the slice).  Spec §3: `Delivery = {consumer_tag, delivery_tag, redelivered,
exchange, routing_key, body, properties}`, immutable once assembled. -/
structure Delivery where
  consumer_tag : String
  delivery_tag : Nat
  redelivered : Bool
  exchange : String
  routing_key : String
  body : List Nat
  properties : AmqpProperties
  deriving DecidableEq, Repr

/-- Modelled from the spec: `Delivery::new(start, buf, properties)` (its
source file is not in the slice).  It assembles the record from the
`basic.deliver` method and the accumulated body bytes, keyed by the
consumer tag (spec §3 and §8 scenario 2). -/
def Delivery.new (start : Deliver) (buf : List Nat) (properties : AmqpProperties) :
    String × Delivery :=
  (start.consumer_tag,
    { consumer_tag := start.consumer_tag
      delivery_tag := start.delivery_tag
      redelivered := start.redelivered
      exchange := start.exchange
      routing_key := start.routing_key
      body := buf
      properties := properties })

/-- `content_collector.rs` lines 89-92: assembly state for one content.
`State<T>` is only ever instantiated at `T = Delivery` (the sole variant of
`Kind`), so it is monomorphised here. -/
inductive State
  | start (d : Deliver)
  | body (d : Deliver) (header : AMQPContentHeader) (buf : List Nat)
  deriving DecidableEq, Repr

/-- `content_collector.rs` lines 84-87: result of one assembly step. -/
inductive Content
  | done (finish : String × Delivery)
  | needMore (s : State)
  deriving DecidableEq, Repr

/-- `content_collector.rs` lines 64-66. -/
inductive Kind
  | delivery (s : State)
  deriving DecidableEq, Repr

/-- `content_collector.rs` lines 5-7. -/
structure ContentCollector where
  kind : Option Kind
  deriving DecidableEq, Repr

/-- `content_collector.rs` lines 9-11. -/
inductive CollectorResult
  | delivery (p : String × Delivery)
  deriving DecidableEq, Repr

/-- `content_collector.rs` lines 14-16. -/
def ContentCollector.new : ContentCollector := { kind := none }

/-- `State::collect_header`, `content_collector.rs` lines 95-111.
`Vec::with_capacity` produces an empty buffer. -/
def State.collect_header (s : State) (header : AMQPContentHeader) :
    Except ErrorKind Content :=
  match s with
  | State.start st =>
    if header.body_size = 0 then
      Except.ok (Content.done (Delivery.new st [] header.properties))
    else
      Except.ok (Content.needMore (State.body st header []))
  | State.body _ _ _ => Except.error ErrorKind.frameUnexpected

/-- `State::collect_body`, `content_collector.rs` lines 113-128.
`buf.append(&mut body)` is `buf ++ body`. -/
def State.collect_body (s : State) (body : List Nat) :
    Except ErrorKind Content :=
  match s with
  | State.body st header buf =>
    let buf' := buf ++ body
    if buf'.length = header.body_size then
      Except.ok (Content.done (Delivery.new st buf' header.properties))
    else if buf'.length < header.body_size then
      Except.ok (Content.needMore (State.body st header buf'))
    else
      Except.error ErrorKind.frameUnexpected
  | State.start _ => Except.error ErrorKind.frameUnexpected

/-- `ContentCollector::collect_deliver`, `content_collector.rs` lines 18-26.
`self.kind.take()` leaves `kind = None`, so on the error branch the
collector is left idle.  The mutated collector is returned alongside the
`Result`. -/
def ContentCollector.collect_deliver (c : ContentCollector) (deliver : Deliver) :
    ContentCollector × Except ErrorKind Unit :=
  match c.kind with
  | none => ({ kind := some (Kind.delivery (State.start deliver)) }, Except.ok ())
  | some _ => ({ kind := none }, Except.error ErrorKind.frameUnexpected)

/-- `ContentCollector::collect_header`, `content_collector.rs` lines 28-45.
The `?` on `state.collect_header(header)` propagates the error with `kind`
already taken, leaving the collector idle. -/
def ContentCollector.collect_header (c : ContentCollector) (header : AMQPContentHeader) :
    ContentCollector × Except ErrorKind (Option CollectorResult) :=
  match c.kind with
  | some (Kind.delivery state) =>
    match state.collect_header header with
    | Except.ok (Content.done p) =>
      ({ kind := none }, Except.ok (some (CollectorResult.delivery p)))
    | Except.ok (Content.needMore s) =>
      ({ kind := some (Kind.delivery s) }, Except.ok none)
    | Except.error e => ({ kind := none }, Except.error e)
  | none => ({ kind := none }, Except.error ErrorKind.frameUnexpected)

/-- `ContentCollector::collect_body`, `content_collector.rs` lines 47-61. -/
def ContentCollector.collect_body (c : ContentCollector) (body : List Nat) :
    ContentCollector × Except ErrorKind (Option CollectorResult) :=
  match c.kind with
  | some (Kind.delivery state) =>
    match state.collect_body body with
    | Except.ok (Content.done p) =>
      ({ kind := none }, Except.ok (some (CollectorResult.delivery p)))
    | Except.ok (Content.needMore s) =>
      ({ kind := some (Kind.delivery s) }, Except.ok none)
    | Except.error e => ({ kind := none }, Except.error e)
  | none => ({ kind := none }, Except.error ErrorKind.frameUnexpected)

/-- One inbound frame of a content sequence, as routed to the collector by
the I/O loop (spec §4.5 step 1). -/
inductive InFrame
  | deliver (d : Deliver)
  | header (h : AMQPContentHeader)
  | body (b : List Nat)
  deriving DecidableEq, Repr

/-- Route one frame to the matching collector operation.  `collect_deliver`
returns no content, so its `Ok(())` becomes `Ok none`. -/
def step (c : ContentCollector) (f : InFrame) :
    ContentCollector × Except ErrorKind (Option CollectorResult) :=
  match f with
  | InFrame.deliver d =>
    let (c', r) := c.collect_deliver d
    (c', r.map fun _ => none)
  | InFrame.header h => c.collect_header h
  | InFrame.body b => c.collect_body b

/-- Feed a list of frames through the collector, recording the emitted
completed contents in order and counting the calls that returned an
error. -/
def runFrames (c : ContentCollector) : List InFrame → ContentCollector × List (String × Delivery) × Nat
  | [] => (c, [], 0)
  | f :: fs =>
    let (c', r) := step c f
    let (cf, es, errs) := runFrames c' fs
    match r with
    | Except.ok none => (cf, es, errs)
    | Except.ok (some (CollectorResult.delivery p)) => (cf, p :: es, errs)
    | Except.error _ => (cf, es, errs + 1)

/-- The well-ordered content sequence: one content-bearing method, its
header, then its body frames. -/
def contentSeq (d : Deliver) (hdr : AMQPContentHeader) (frames : List (List Nat)) :
    List InFrame :=
  InFrame.deliver d :: InFrame.header hdr :: frames.map InFrame.body

/-! ## Channel and server-close state (`src/channel.rs`) -/

/-- `amq_protocol::protocol::channel::Close`. -/
structure Close where
  reply_code : Nat
  reply_text : String
  class_id : Nat
  method_id : Nat
  deriving DecidableEq, Repr

/-- `amq_protocol::protocol::channel::CloseOk` (no fields). -/
inductive CloseOk
  | mk
  deriving DecidableEq, Repr

/-- `amq_protocol::protocol::basic::Publish`. -/
structure Publish where
  ticket : Nat
  exchange : String
  routing_key : String
  mandatory : Bool
  immediate : Bool
  deriving DecidableEq, Repr

/-- Modelled from the spec: `Publish::get_class_id()` comes from the codec
crate; spec §8 scenario 1 shows the `basic` class id is 60. -/
def Publish.get_class_id : Nat := 60

/-- The outcome of running a piece of Rust that may panic (`unwrap`). -/
inductive RustOutcome (α : Type)
  | ok (a : α)
  | panicked
  deriving DecidableEq, Repr

/-- `channel.rs` lines 14-18: the cross-thread server-close cell, an atomic
flag plus a mutex-guarded error.  One field update models one store. -/
structure ServerClosedError where
  is_closed : Bool := false
  error : Option ErrorKind := none
  deriving DecidableEq, Repr

/-- First store of `ChannelHandle::set_server_closed` (`channel.rs` lines
58-65): fill the mutex-guarded error. -/
def ChannelHandle.set_server_closed_store_error (id : Nat) (close : Close)
    (s : ServerClosedError) : ServerClosedError :=
  { s with error := some (ErrorKind.serverClosedChannel id close.reply_code close.reply_text) }

/-- Second store of `ChannelHandle::set_server_closed` (`channel.rs` line
66): raise the atomic flag. -/
def ChannelHandle.set_server_closed_store_flag (s : ServerClosedError) : ServerClosedError :=
  { s with is_closed := true }

/-- `ChannelHandle::set_server_closed`, `channel.rs` lines 57-67: the error
is stored strictly before the flag. -/
def ChannelHandle.set_server_closed (id : Nat) (close : Close)
    (s : ServerClosedError) : ServerClosedError :=
  ChannelHandle.set_server_closed_store_flag
    (ChannelHandle.set_server_closed_store_error id close s)

/-- The states of the server-close cell that any thread can observe: the
default cell, and every state between and after the two stores of
`set_server_closed`, starting from any observable state. -/
inductive ReachableSCE : ServerClosedError → Prop
  | init : ReachableSCE {}
  | mid (s : ServerClosedError) (id : Nat) (close : Close) :
      ReachableSCE s → ReachableSCE (ChannelHandle.set_server_closed_store_error id close s)
  | done (s : ServerClosedError) (id : Nat) (close : Close) :
      ReachableSCE s → ReachableSCE (ChannelHandle.set_server_closed id close s)

/-- The view of `Channel` (`channel.rs` lines 70-76) needed by its methods:
the `loop_handle` and `rpc` receiver are replaced by the explicit message
trace and reply arguments of each operation. -/
structure Channel where
  id : Nat
  closed : Bool
  server_closed : ServerClosedError
  deriving DecidableEq, Repr

/-- A method sent to the I/O loop on behalf of a channel. -/
inductive ChannelRpcMethod
  | basicPublish (p : Publish)
  | channelClose (c : Close)
  deriving DecidableEq, Repr

/-- A message emitted to the I/O loop thread by a `Channel` method.
Modelled from the spec: the `EventLoopHandle` operations `call_nowait`,
`send_content` and `call` (their source file is not in the slice) enqueue
one method frame, one content (header plus body frames), and one RPC method
respectively (spec §4.4). -/
inductive LoopMessage
  | method (channel_id : Nat) (m : ChannelRpcMethod)
  | content (channel_id : Nat) (body : List Nat) (class_id : Nat) (properties : AmqpProperties)
  deriving DecidableEq, Repr

/-- `Channel::check_server_closed`, `channel.rs` lines 128-137.  The
`unwrap` of the stored error panics when the mutex holds `None`. -/
def Channel.check_server_closed (ch : Channel) : RustOutcome (Except ErrorKind Unit) :=
  if ch.server_closed.is_closed = false then
    RustOutcome.ok (Except.ok ())
  else
    match ch.server_closed.error with
    | some e => RustOutcome.ok (Except.error e)
    | none => RustOutcome.panicked

/-- `mod method`, `channel.rs` lines 158-170: the `channel.close` method a
graceful close sends.  The reply code and text are `0` and `""` in the
source (both marked TODO). -/
def method.channel_close : Close :=
  { reply_code := 0, reply_text := "", class_id := 0, method_id := 0 }

/-- `Channel::basic_publish`, `channel.rs` lines 99-126: check the
server-close cell, then send the `basic.publish` method (`call_nowait`)
followed by the content (`send_content`).  Returns the `Result` together
with the messages that reached the I/O loop. -/
def Channel.basic_publish (ch : Channel) (content : List Nat)
    (exchange routing_key : String) (mandatory immediate : Bool)
    (properties : AmqpProperties) :
    RustOutcome (Except ErrorKind Unit × List LoopMessage) :=
  match ch.check_server_closed with
  | RustOutcome.panicked => RustOutcome.panicked
  | RustOutcome.ok (Except.error e) => RustOutcome.ok (Except.error e, [])
  | RustOutcome.ok (Except.ok _) =>
    RustOutcome.ok (Except.ok (),
      [LoopMessage.method ch.id (ChannelRpcMethod.basicPublish
          { ticket := 0, exchange := exchange, routing_key := routing_key,
            mandatory := mandatory, immediate := immediate }),
       LoopMessage.content ch.id content Publish.get_class_id properties])

/-- `Channel::close_and_wait`, `channel.rs` lines 139-155: bail if the
server closed the channel, return `Ok` at once if already locally closed,
otherwise mark closed, send `channel.close` and wait for the broker's
reply.  `reply` is the outcome of that synchronous RPC, supplied by the
I/O loop. -/
def Channel.close_and_wait (ch : Channel) (reply : Except ErrorKind CloseOk) :
    RustOutcome (Except ErrorKind Unit × Channel × List LoopMessage) :=
  match ch.check_server_closed with
  | RustOutcome.panicked => RustOutcome.panicked
  | RustOutcome.ok (Except.error e) => RustOutcome.ok (Except.error e, ch, [])
  | RustOutcome.ok (Except.ok _) =>
    if ch.closed then
      RustOutcome.ok (Except.ok (), ch, [])
    else
      let ch' := { ch with closed := true }
      match reply with
      | Except.ok _ =>
        RustOutcome.ok (Except.ok (), ch',
          [LoopMessage.method ch.id (ChannelRpcMethod.channelClose method.channel_close)])
      | Except.error e =>
        RustOutcome.ok (Except.error e, ch',
          [LoopMessage.method ch.id (ChannelRpcMethod.channelClose method.channel_close)])

/-! ## I/O loop handle (`src/io_loop/io_loop_handle.rs`) -/

/-- `io_loop.rs` channel message delivered to a handle's reply receiver.
The consumer receiver handed back by `ConsumeOk` is abstracted to an
identifier. -/
inductive ChannelMessage
  | consumeOk (tag : String) (rx : Nat)
  | method (m : ChannelRpcMethod)
  deriving DecidableEq, Repr

/-- RPC payload sent to the loop: an encoded frame buffer. -/
inductive IoLoopRpc
  | send (buf : List Nat)
  deriving DecidableEq, Repr

/-- Message on the handle-to-loop queue. -/
inductive IoLoopMessage
  | command (c : Nat)
  | rpc (r : IoLoopRpc)
  deriving DecidableEq, Repr

/-- The two channel endpoints an `IoLoopHandle` holds, as the handle can
observe them in one operation.  `send_ok` is whether `tx.send` succeeds;
`recv_result` is what `rx.recv()` yields — `none` models `RecvError`, the
sender end having been dropped.  A terminated I/O loop thread has
`send_ok = false` and `recv_result = none`, permanently. -/
structure IoLoopEnv where
  send_ok : Bool
  recv_result : Option (Except ErrorKind ChannelMessage)
  deriving Repr

/-- `IoLoopHandle::recv`, `io_loop_handle.rs` lines 120-125: a `RecvError`
becomes `EventLoopDropped`; a received `Result` is propagated by `?`. -/
def IoLoopHandle.recv (env : IoLoopEnv) : Except ErrorKind ChannelMessage :=
  match env.recv_result with
  | some r => r
  | none => Except.error ErrorKind.eventLoopDropped

/-- `IoLoopHandle::send`, `io_loop_handle.rs` lines 99-118: when `tx.send`
fails, check `recv()`; an `Ok` there is the impossible case reported as
`FrameUnexpected`, an `Err` is returned as the send's error. -/
def IoLoopHandle.send (env : IoLoopEnv) (_message : IoLoopMessage) :
    Except ErrorKind Unit :=
  if env.send_ok then
    Except.ok ()
  else
    match IoLoopHandle.recv env with
    | Except.ok _ => Except.error ErrorKind.frameUnexpected
    | Except.error e => Except.error e

/-- `IoLoopHandle::call_rpc`, `io_loop_handle.rs` lines 62-68.  The
`T::try_from` conversion of the reply method is a parameter (`serialize.rs`
is outside the slice). -/
def IoLoopHandle.call_rpc {T : Type} (env : IoLoopEnv) (rpc : IoLoopRpc)
    (tryFrom : ChannelRpcMethod → Except ErrorKind T) : Except ErrorKind T :=
  match IoLoopHandle.send env (IoLoopMessage.rpc rpc) with
  | Except.error e => Except.error e
  | Except.ok _ =>
    match IoLoopHandle.recv env with
    | Except.ok (ChannelMessage.method m) => tryFrom m
    | Except.ok (ChannelMessage.consumeOk _ _) => Except.error ErrorKind.frameUnexpected
    | Except.error e => Except.error e

/-- `IoLoopHandle::call`, `io_loop_handle.rs` lines 57-60: encode the
method (`make_buf`, whose encoder lives in `serialize.rs` outside the
slice, here the pre-encoded `buf`) and run it as an RPC. -/
def IoLoopHandle.call {T : Type} (env : IoLoopEnv) (buf : List Nat)
    (tryFrom : ChannelRpcMethod → Except ErrorKind T) : Except ErrorKind T :=
  IoLoopHandle.call_rpc env (IoLoopRpc.send buf) tryFrom

/-- `IoLoopHandle::consume`, `io_loop_handle.rs` lines 45-55: send the
encoded `basic.consume`, then expect a `ConsumeOk` reply; a plain method
reply is `FrameUnexpected`. -/
def IoLoopHandle.consume (env : IoLoopEnv) (buf : List Nat) :
    Except ErrorKind (String × Nat) :=
  match IoLoopHandle.send env (IoLoopMessage.rpc (IoLoopRpc.send buf)) with
  | Except.error e => Except.error e
  | Except.ok _ =>
    match IoLoopHandle.recv env with
    | Except.ok (ChannelMessage.consumeOk tag rx) => Except.ok (tag, rx)
    | Except.ok (ChannelMessage.method _) => Except.error ErrorKind.frameUnexpected
    | Except.error e => Except.error e

/-! ## Helper lemmas about the collector run -/

/-- Body frames fed while the collector is idle are all rejected and leave
it idle. -/
theorem runFrames_idle_bodies (frames : List (List Nat)) :
    runFrames { kind := none } (frames.map InFrame.body)
      = ({ kind := none }, [], frames.length) := by
  induction frames with
  | nil => rfl
  | cons b fs ih =>
    simp [runFrames, step, ContentCollector.collect_body, ih]

/-- A list of lists whose lengths sum to zero flattens to the empty list. -/
theorem flatten_eq_nil_of_sum_len_zero (frames : List (List Nat))
    (h : (frames.map List.length).sum = 0) : frames.flatten = [] := by
  have hlen : frames.flatten.length = 0 := by
    rw [List.length_flatten]
    exact h
  exact List.eq_nil_of_length_eq_zero hlen

/-- Running body frames from an in-progress body state whose missing bytes
are exactly the frames' total emits the one finished delivery and returns
to idle. -/
theorem runFrames_body_finish (frames : List (List Nat)) :
    ∀ (d : Deliver) (hdr : AMQPContentHeader) (buf : List Nat),
      buf.length < hdr.body_size →
      buf.length + (frames.map List.length).sum = hdr.body_size →
      ∃ errs,
        runFrames { kind := some (Kind.delivery (State.body d hdr buf)) }
            (frames.map InFrame.body)
          = ({ kind := none },
             [Delivery.new d (buf ++ frames.flatten) hdr.properties], errs) := by
  induction frames with
  | nil =>
    intro d hdr buf hlt hsum
    simp at hsum
    omega
  | cons b fs ih =>
    intro d hdr buf hlt hsum
    simp at hsum
    by_cases heq : buf.length + b.length = hdr.body_size
    · have hfs : (fs.map List.length).sum = 0 := by omega
      have hflat : fs.flatten = [] := flatten_eq_nil_of_sum_len_zero fs hfs
      refine ⟨fs.length, ?_⟩
      simp [runFrames, step, ContentCollector.collect_body, State.collect_body, heq,
        runFrames_idle_bodies, hflat]
    · have hlt2 : buf.length + b.length < hdr.body_size := by omega
      have hsum2 : (buf ++ b).length + (fs.map List.length).sum = hdr.body_size := by
        simp
        omega
      obtain ⟨errs, herrs⟩ := ih d hdr (buf ++ b) (by simp; omega) hsum2
      refine ⟨errs, ?_⟩
      simp [runFrames, step, ContentCollector.collect_body, State.collect_body, heq, hlt2,
        herrs]

/-- Running body frames that fall short of the header's body size emits
nothing, errors nowhere, and stays in the body state with the frames
appended. -/
theorem runFrames_body_partial (frames : List (List Nat)) :
    ∀ (d : Deliver) (hdr : AMQPContentHeader) (buf : List Nat),
      buf.length + (frames.map List.length).sum < hdr.body_size →
      runFrames { kind := some (Kind.delivery (State.body d hdr buf)) }
          (frames.map InFrame.body)
        = ({ kind := some (Kind.delivery (State.body d hdr (buf ++ frames.flatten))) },
           [], 0) := by
  induction frames with
  | nil =>
    intro d hdr buf _
    simp [runFrames]
  | cons b fs ih =>
    intro d hdr buf hlt
    simp at hlt
    have hne : ¬ buf.length + b.length = hdr.body_size := by omega
    have hlt2 : buf.length + b.length < hdr.body_size := by omega
    have ihr := ih d hdr (buf ++ b) (by simp; omega)
    simp [runFrames, step, ContentCollector.collect_body, State.collect_body, hne, hlt2, ihr]

/-! ## Claim theorems: content collector -/

/-- C1: for every well-ordered content sequence from the idle collector —
one `collect_deliver`, one `collect_header` whose `body_size` is the sum of
the body frame lengths, then those body frames — the collector emits
exactly one completed content, whose body bytes are the concatenation of
the body frames in order (empty when the size is 0), and is idle
afterward. -/
theorem collector_C1 (d : Deliver) (hdr : AMQPContentHeader) (frames : List (List Nat))
    (hsum : (frames.map List.length).sum = hdr.body_size) :
    (∃ errs,
        runFrames ContentCollector.new (contentSeq d hdr frames)
          = ({ kind := none },
             [Delivery.new d frames.flatten hdr.properties], errs)) ∧
    (Delivery.new d frames.flatten hdr.properties).2.body = frames.flatten := by
  refine ⟨?_, rfl⟩
  by_cases hz : hdr.body_size = 0
  · have hfs : (frames.map List.length).sum = 0 := by omega
    have hflat : frames.flatten = [] := flatten_eq_nil_of_sum_len_zero frames hfs
    refine ⟨frames.length, ?_⟩
    simp [contentSeq, runFrames, step, ContentCollector.new,
      ContentCollector.collect_deliver, ContentCollector.collect_header,
      State.collect_header, Except.map, hz, runFrames_idle_bodies, hflat]
  · obtain ⟨errs, herrs⟩ :=
      runFrames_body_finish frames d hdr [] (by simp; omega) (by simpa using hsum)
    refine ⟨errs, ?_⟩
    simp only [List.nil_append] at herrs
    simp [contentSeq, runFrames, step, ContentCollector.new,
      ContentCollector.collect_deliver, ContentCollector.collect_header,
      State.collect_header, Except.map, hz, herrs]

/-- Witness for C1 at a concrete input: a deliver, a header with
`body_size = 3`, and body frames `[1,2]`, `[3]`. -/
theorem collector_C1_witness :
    (∃ errs,
        runFrames ContentCollector.new
            (contentSeq { consumer_tag := "ctag", delivery_tag := 7,
                          redelivered := false, exchange := "", routing_key := "q" }
              { class_id := 60, weight := 0, body_size := 3, properties := {} }
              [[1, 2], [3]])
          = ({ kind := none },
             [Delivery.new
                { consumer_tag := "ctag", delivery_tag := 7,
                  redelivered := false, exchange := "", routing_key := "q" }
                ([[1, 2], [3]] : List (List Nat)).flatten
                ({ class_id := 60, weight := 0, body_size := 3,
                   properties := {} } : AMQPContentHeader).properties], errs)) ∧
    (Delivery.new
        { consumer_tag := "ctag", delivery_tag := 7,
          redelivered := false, exchange := "", routing_key := "q" }
        ([[1, 2], [3]] : List (List Nat)).flatten
        ({ class_id := 60, weight := 0, body_size := 3,
           properties := {} } : AMQPContentHeader).properties).2.body
      = ([[1, 2], [3]] : List (List Nat)).flatten :=
  collector_C1
    { consumer_tag := "ctag", delivery_tag := 7,
      redelivered := false, exchange := "", routing_key := "q" }
    { class_id := 60, weight := 0, body_size := 3, properties := {} }
    [[1, 2], [3]] (by decide)

/-- C2: every frame out of the `Method → Header → Body*` order is rejected
with `FrameUnexpected`: a header or body while idle, a second
content-bearing method during assembly, a header while awaiting body, a
body while awaiting header, and a body frame overrunning the header's
`body_size`. -/
theorem collector_C2 (d sd : Deliver) (k : Kind) (hdr sh : AMQPContentHeader)
    (b buf : List Nat) (hov : sh.body_size < buf.length + b.length) :
    ContentCollector.collect_header ContentCollector.new hdr
        = ({ kind := none }, Except.error ErrorKind.frameUnexpected) ∧
    ContentCollector.collect_body ContentCollector.new b
        = ({ kind := none }, Except.error ErrorKind.frameUnexpected) ∧
    ContentCollector.collect_deliver { kind := some k } d
        = ({ kind := none }, Except.error ErrorKind.frameUnexpected) ∧
    ContentCollector.collect_header
        { kind := some (Kind.delivery (State.body sd sh buf)) } hdr
        = ({ kind := none }, Except.error ErrorKind.frameUnexpected) ∧
    ContentCollector.collect_body
        { kind := some (Kind.delivery (State.start sd)) } b
        = ({ kind := none }, Except.error ErrorKind.frameUnexpected) ∧
    ContentCollector.collect_body
        { kind := some (Kind.delivery (State.body sd sh buf)) } b
        = ({ kind := none }, Except.error ErrorKind.frameUnexpected) := by
  have hne : ¬ buf.length + b.length = sh.body_size := by omega
  have hnlt : ¬ buf.length + b.length < sh.body_size := by omega
  refine ⟨rfl, rfl, rfl, rfl, rfl, ?_⟩
  simp [ContentCollector.collect_body, State.collect_body, hne, hnlt]

/-- Witness for C2 at concrete inputs: `body_size = 1`, accumulated buffer
`[9]`, incoming body `[8]` overruns it. -/
theorem collector_C2_witness :
    ContentCollector.collect_header ContentCollector.new
        { class_id := 60, weight := 0, body_size := 1, properties := {} }
        = ({ kind := none }, Except.error ErrorKind.frameUnexpected) ∧
    ContentCollector.collect_body ContentCollector.new [8]
        = ({ kind := none }, Except.error ErrorKind.frameUnexpected) ∧
    ContentCollector.collect_deliver
        { kind := some (Kind.delivery (State.start
            { consumer_tag := "c", delivery_tag := 1, redelivered := false,
              exchange := "", routing_key := "q" })) }
        { consumer_tag := "c2", delivery_tag := 2, redelivered := false,
          exchange := "", routing_key := "q" }
        = ({ kind := none }, Except.error ErrorKind.frameUnexpected) ∧
    ContentCollector.collect_header
        { kind := some (Kind.delivery (State.body
            { consumer_tag := "c", delivery_tag := 1, redelivered := false,
              exchange := "", routing_key := "q" }
            { class_id := 60, weight := 0, body_size := 1, properties := {} } [9])) }
        { class_id := 60, weight := 0, body_size := 1, properties := {} }
        = ({ kind := none }, Except.error ErrorKind.frameUnexpected) ∧
    ContentCollector.collect_body
        { kind := some (Kind.delivery (State.start
            { consumer_tag := "c", delivery_tag := 1, redelivered := false,
              exchange := "", routing_key := "q" })) } [8]
        = ({ kind := none }, Except.error ErrorKind.frameUnexpected) ∧
    ContentCollector.collect_body
        { kind := some (Kind.delivery (State.body
            { consumer_tag := "c", delivery_tag := 1, redelivered := false,
              exchange := "", routing_key := "q" }
            { class_id := 60, weight := 0, body_size := 1, properties := {} } [9])) } [8]
        = ({ kind := none }, Except.error ErrorKind.frameUnexpected) :=
  collector_C2
    { consumer_tag := "c2", delivery_tag := 2, redelivered := false,
      exchange := "", routing_key := "q" }
    { consumer_tag := "c", delivery_tag := 1, redelivered := false,
      exchange := "", routing_key := "q" }
    (Kind.delivery (State.start
      { consumer_tag := "c", delivery_tag := 1, redelivered := false,
        exchange := "", routing_key := "q" }))
    { class_id := 60, weight := 0, body_size := 1, properties := {} }
    { class_id := 60, weight := 0, body_size := 1, properties := {} }
    [8] [9] (by decide)

/-- C5 counterexample: the claim says the collector supports a
GetOk-triggered assembly emitting a `Get` result, but `CollectorResult`
(`content_collector.rs` lines 9-11) has only the `Delivery` variant, as
does `Kind` (lines 64-66): no collector output other than a delivery
exists, so no `Get` result can ever be emitted. -/
theorem collector_C5_counterexample :
    ¬ ∃ r : CollectorResult, ∀ p : String × Delivery, r ≠ CollectorResult.delivery p := by
  rintro ⟨r, h⟩
  cases r with
  | delivery p => exact h p rfl

/-- C5 amended: the sliced collector supports only the `Deliver` trigger;
after a `basic.deliver` method, a header with `body_size = 0` immediately
emits the completed `Delivery` with an empty body, with no body frame
required. -/
theorem collector_C5_amended (d : Deliver) (hdr : AMQPContentHeader)
    (hz : hdr.body_size = 0) :
    ContentCollector.collect_header
        (ContentCollector.collect_deliver ContentCollector.new d).1 hdr
      = ({ kind := none },
         Except.ok (some (CollectorResult.delivery (Delivery.new d [] hdr.properties)))) ∧
    (Delivery.new d [] hdr.properties).2.body = [] := by
  refine ⟨?_, rfl⟩
  simp [ContentCollector.new, ContentCollector.collect_deliver,
    ContentCollector.collect_header, State.collect_header, hz]

/-- Witness for the amended C5 at a concrete zero-length content. -/
theorem collector_C5_amended_witness :
    ContentCollector.collect_header
        (ContentCollector.collect_deliver ContentCollector.new
          { consumer_tag := "g", delivery_tag := 3, redelivered := false,
            exchange := "", routing_key := "q" }).1
        { class_id := 60, weight := 0, body_size := 0, properties := {} }
      = ({ kind := none },
         Except.ok (some (CollectorResult.delivery
           (Delivery.new
             { consumer_tag := "g", delivery_tag := 3, redelivered := false,
               exchange := "", routing_key := "q" } []
             ({ class_id := 60, weight := 0, body_size := 0,
                properties := {} } : AMQPContentHeader).properties)))) ∧
    (Delivery.new
        { consumer_tag := "g", delivery_tag := 3, redelivered := false,
          exchange := "", routing_key := "q" } []
        ({ class_id := 60, weight := 0, body_size := 0,
           properties := {} } : AMQPContentHeader).properties).2.body = [] :=
  collector_C5_amended
    { consumer_tag := "g", delivery_tag := 3, redelivered := false,
      exchange := "", routing_key := "q" }
    { class_id := 60, weight := 0, body_size := 0, properties := {} } (by decide)

/-- C6: feeding any strict prefix of a complete content sequence — the
method alone, or method + header with positive `body_size` + body frames
totalling fewer bytes — yields no emission, no error, and leaves the
collector in a non-idle state. -/
theorem collector_C6 (d : Deliver) (hdr : AMQPContentHeader) (frames : List (List Nat))
    (hpos : 0 < hdr.body_size)
    (hlt : (frames.map List.length).sum < hdr.body_size) :
    runFrames ContentCollector.new [InFrame.deliver d]
        = ({ kind := some (Kind.delivery (State.start d)) }, [], 0) ∧
    runFrames ContentCollector.new (contentSeq d hdr frames)
        = ({ kind := some (Kind.delivery (State.body d hdr frames.flatten)) }, [], 0) ∧
    (runFrames ContentCollector.new [InFrame.deliver d]).1 ≠ ContentCollector.new ∧
    (runFrames ContentCollector.new (contentSeq d hdr frames)).1 ≠ ContentCollector.new := by
  have hz : ¬ hdr.body_size = 0 := by omega
  have h1 : runFrames ContentCollector.new [InFrame.deliver d]
      = ({ kind := some (Kind.delivery (State.start d)) }, [], 0) := by
    simp [runFrames, step, ContentCollector.new, ContentCollector.collect_deliver,
      Except.map]
  have hpart := runFrames_body_partial frames d hdr [] (by simpa using hlt)
  simp only [List.nil_append] at hpart
  have h2 : runFrames ContentCollector.new (contentSeq d hdr frames)
      = ({ kind := some (Kind.delivery (State.body d hdr frames.flatten)) }, [], 0) := by
    simp [contentSeq, runFrames, step, ContentCollector.new,
      ContentCollector.collect_deliver, ContentCollector.collect_header,
      State.collect_header, Except.map, hz, hpart]
  refine ⟨h1, h2, ?_, ?_⟩
  · rw [h1]
    simp [ContentCollector.new]
  · rw [h2]
    simp [ContentCollector.new]

/-- Witness for C6 at a concrete input: `body_size = 3` with body frames
totalling 2 bytes. -/
theorem collector_C6_witness :
    runFrames ContentCollector.new
        [InFrame.deliver { consumer_tag := "c", delivery_tag := 5,
                            redelivered := false, exchange := "", routing_key := "q" }]
        = ({ kind := some (Kind.delivery (State.start
              { consumer_tag := "c", delivery_tag := 5, redelivered := false,
                exchange := "", routing_key := "q" })) }, [], 0) ∧
    runFrames ContentCollector.new
        (contentSeq
          { consumer_tag := "c", delivery_tag := 5, redelivered := false,
            exchange := "", routing_key := "q" }
          { class_id := 60, weight := 0, body_size := 3, properties := {} }
          [[1], [2]])
        = ({ kind := some (Kind.delivery (State.body
              { consumer_tag := "c", delivery_tag := 5, redelivered := false,
                exchange := "", routing_key := "q" }
              { class_id := 60, weight := 0, body_size := 3, properties := {} }
              ([[1], [2]] : List (List Nat)).flatten)) }, [], 0) ∧
    (runFrames ContentCollector.new
        [InFrame.deliver { consumer_tag := "c", delivery_tag := 5,
                            redelivered := false, exchange := "", routing_key := "q" }]).1
      ≠ ContentCollector.new ∧
    (runFrames ContentCollector.new
        (contentSeq
          { consumer_tag := "c", delivery_tag := 5, redelivered := false,
            exchange := "", routing_key := "q" }
          { class_id := 60, weight := 0, body_size := 3, properties := {} }
          [[1], [2]])).1 ≠ ContentCollector.new :=
  collector_C6
    { consumer_tag := "c", delivery_tag := 5, redelivered := false,
      exchange := "", routing_key := "q" }
    { class_id := 60, weight := 0, body_size := 3, properties := {} }
    [[1], [2]] (by decide) (by decide)

/-- C10: every collector operation that returns an error leaves the
collector idle (`kind = none`): the state is taken out before the fallible
transition and discarded on the error path, so partially accumulated
content is never retained. -/
theorem collector_C10 (c₁ c₂ c₃ : ContentCollector) (d : Deliver)
    (hdr : AMQPContentHeader) (b : List Nat) (e₁ e₂ e₃ : ErrorKind)
    (h₁ : (c₁.collect_deliver d).2 = Except.error e₁)
    (h₂ : (c₂.collect_header hdr).2 = Except.error e₂)
    (h₃ : (c₃.collect_body b).2 = Except.error e₃) :
    (c₁.collect_deliver d).1.kind = none ∧
    (c₂.collect_header hdr).1.kind = none ∧
    (c₃.collect_body b).1.kind = none := by
  refine ⟨?_, ?_, ?_⟩
  · obtain ⟨_ | k⟩ := c₁ <;> simp [ContentCollector.collect_deliver] at h₁ ⊢
  · obtain ⟨_ | k⟩ := c₂
    · simp [ContentCollector.collect_header]
    · obtain ⟨s⟩ := k
      simp only [ContentCollector.collect_header] at h₂ ⊢
      rcases hc : s.collect_header hdr with e | cnt
      · simp [hc]
      · simp [hc] at h₂ ⊢
        cases cnt <;> simp at h₂ ⊢
  · obtain ⟨_ | k⟩ := c₃
    · simp [ContentCollector.collect_body]
    · obtain ⟨s⟩ := k
      simp only [ContentCollector.collect_body] at h₃ ⊢
      rcases hc : s.collect_body b with e | cnt
      · simp [hc]
      · simp [hc] at h₃ ⊢
        cases cnt <;> simp at h₃ ⊢

/-- Witness for C10: a second deliver during assembly, a header while idle,
and a body while idle, all erroring into the idle state. -/
theorem collector_C10_witness :
    (ContentCollector.collect_deliver
        { kind := some (Kind.delivery (State.start
            { consumer_tag := "c", delivery_tag := 1, redelivered := false,
              exchange := "", routing_key := "q" })) }
        { consumer_tag := "c", delivery_tag := 2, redelivered := false,
          exchange := "", routing_key := "q" }).1.kind = none ∧
    (ContentCollector.collect_header { kind := none }
        { class_id := 60, weight := 0, body_size := 4, properties := {} }).1.kind = none ∧
    (ContentCollector.collect_body { kind := none } [1, 2]).1.kind = none :=
  collector_C10
    { kind := some (Kind.delivery (State.start
        { consumer_tag := "c", delivery_tag := 1, redelivered := false,
          exchange := "", routing_key := "q" })) }
    { kind := none } { kind := none }
    { consumer_tag := "c", delivery_tag := 2, redelivered := false,
      exchange := "", routing_key := "q" }
    { class_id := 60, weight := 0, body_size := 4, properties := {} }
    [1, 2]
    ErrorKind.frameUnexpected ErrorKind.frameUnexpected ErrorKind.frameUnexpected
    rfl rfl rfl

/-! ## Claim theorems: channel close state -/

/-- C3: after `set_server_closed(close)` records a server-initiated
`channel.close`, both `basic_publish` and the close logic return
`ServerClosedChannel` carrying the close frame's original reply code and
text, and emit no message to the I/O loop. -/
theorem channel_C3 (ch : Channel) (hid : Nat) (close : Close)
    (s0 : ServerClosedError)
    (h : ch.server_closed = ChannelHandle.set_server_closed hid close s0)
    (content : List Nat) (exchange routing_key : String)
    (mandatory immediate : Bool) (properties : AmqpProperties)
    (reply : Except ErrorKind CloseOk) :
    ch.basic_publish content exchange routing_key mandatory immediate properties
        = RustOutcome.ok
            (Except.error (ErrorKind.serverClosedChannel hid close.reply_code close.reply_text),
             []) ∧
    ch.close_and_wait reply
        = RustOutcome.ok
            (Except.error (ErrorKind.serverClosedChannel hid close.reply_code close.reply_text),
             ch, []) := by
  have hcheck : ch.check_server_closed
      = RustOutcome.ok (Except.error
          (ErrorKind.serverClosedChannel hid close.reply_code close.reply_text)) := by
    simp [Channel.check_server_closed, h, ChannelHandle.set_server_closed,
      ChannelHandle.set_server_closed_store_flag, ChannelHandle.set_server_closed_store_error]
  exact ⟨by simp [Channel.basic_publish, hcheck],
         by simp [Channel.close_and_wait, hcheck]⟩

/-- Witness for C3 at the spec's scenario 3: `channel.close(406,
"PRECONDITION_FAILED")` on channel 1. -/
theorem channel_C3_witness :
    Channel.basic_publish
        { id := 1, closed := false,
          server_closed := ChannelHandle.set_server_closed 1
            { reply_code := 406, reply_text := "PRECONDITION_FAILED",
              class_id := 0, method_id := 0 } {} }
        [104, 105] "" "q" false false {}
        = RustOutcome.ok
            (Except.error (ErrorKind.serverClosedChannel 1 406 "PRECONDITION_FAILED"), []) ∧
    Channel.close_and_wait
        { id := 1, closed := false,
          server_closed := ChannelHandle.set_server_closed 1
            { reply_code := 406, reply_text := "PRECONDITION_FAILED",
              class_id := 0, method_id := 0 } {} }
        (Except.ok CloseOk.mk)
        = RustOutcome.ok
            (Except.error (ErrorKind.serverClosedChannel 1 406 "PRECONDITION_FAILED"),
             { id := 1, closed := false,
               server_closed := ChannelHandle.set_server_closed 1
                 { reply_code := 406, reply_text := "PRECONDITION_FAILED",
                   class_id := 0, method_id := 0 } {} }, []) :=
  channel_C3
    { id := 1, closed := false,
      server_closed := ChannelHandle.set_server_closed 1
        { reply_code := 406, reply_text := "PRECONDITION_FAILED",
          class_id := 0, method_id := 0 } {} }
    1
    { reply_code := 406, reply_text := "PRECONDITION_FAILED",
      class_id := 0, method_id := 0 }
    {} rfl [104, 105] "" "q" false false {} (Except.ok CloseOk.mk)

/-- C4 evaluation: the `channel.close` method that a graceful local close
sends (`channel.rs` lines 162-169) carries `reply_code = 0` and
`reply_text = ""` (both marked TODO in the source), not the compliant
`200` / `"OK"` the claim states. -/
theorem channel_C4_eval :
    method.channel_close
        = { reply_code := 0, reply_text := "", class_id := 0, method_id := 0 } ∧
    method.channel_close.reply_code ≠ 200 ∧
    method.channel_close.reply_text ≠ "OK" := by
  refine ⟨rfl, by decide, by decide⟩

/-- C7: with the channel open and not server-closed, a first successful
close sends one `channel.close` and marks the channel closed; running the
close logic again (as the `Drop` impl does) returns `Ok` and sends
nothing. -/
theorem channel_C7 (ch : Channel) (hopen : ch.closed = false)
    (hsrv : ch.server_closed.is_closed = false) (ok1 : CloseOk)
    (reply2 : Except ErrorKind CloseOk) :
    ch.close_and_wait (Except.ok ok1)
        = RustOutcome.ok (Except.ok (), { ch with closed := true },
            [LoopMessage.method ch.id (ChannelRpcMethod.channelClose method.channel_close)]) ∧
    Channel.close_and_wait { ch with closed := true } reply2
        = RustOutcome.ok (Except.ok (), { ch with closed := true }, []) := by
  constructor
  · simp [Channel.close_and_wait, Channel.check_server_closed, hsrv, hopen]
  · simp [Channel.close_and_wait, Channel.check_server_closed, hsrv]

/-- Witness for C7 on a concrete open channel 2. -/
theorem channel_C7_witness :
    Channel.close_and_wait { id := 2, closed := false, server_closed := {} }
        (Except.ok CloseOk.mk)
        = RustOutcome.ok (Except.ok (),
            { ({ id := 2, closed := false, server_closed := {} } : Channel) with
              closed := true },
            [LoopMessage.method 2 (ChannelRpcMethod.channelClose method.channel_close)]) ∧
    Channel.close_and_wait
        { ({ id := 2, closed := false, server_closed := {} } : Channel) with
          closed := true }
        (Except.ok CloseOk.mk)
        = RustOutcome.ok (Except.ok (),
            { ({ id := 2, closed := false, server_closed := {} } : Channel) with
              closed := true }, []) :=
  channel_C7 { id := 2, closed := false, server_closed := {} } rfl rfl CloseOk.mk
    (Except.ok CloseOk.mk)

/-- The invariant of the server-close cell over every state any thread can
observe: the flag is raised only while the error is filled in. -/
theorem reachable_sce_invariant {s : ServerClosedError} (h : ReachableSCE s) :
    s.is_closed = true → s.error.isSome := by
  induction h with
  | init => simp
  | mid s id close _ _ =>
    simp [ChannelHandle.set_server_closed_store_error]
  | done s id close _ _ =>
    simp [ChannelHandle.set_server_closed, ChannelHandle.set_server_closed_store_flag,
      ChannelHandle.set_server_closed_store_error]

/-- C9: on every observable state of the server-close cell, the flag being
set implies the mutex holds an error, the `unwrap` in
`check_server_closed` cannot panic, and `check_server_closed` returns `Ok`
exactly when the flag is clear. -/
theorem channel_C9 (ch : Channel) (h : ReachableSCE ch.server_closed) :
    (ch.server_closed.is_closed = true → ch.server_closed.error.isSome) ∧
    ch.check_server_closed ≠ RustOutcome.panicked ∧
    (ch.check_server_closed = RustOutcome.ok (Except.ok ())
      ↔ ch.server_closed.is_closed = false) := by
  have hinv := reachable_sce_invariant h
  refine ⟨hinv, ?_, ?_⟩
  · by_cases hc : ch.server_closed.is_closed = false
    · simp [Channel.check_server_closed, hc]
    · have hsome := hinv (by revert hc; cases ch.server_closed.is_closed <;> simp)
      rcases he : ch.server_closed.error with _ | e
      · rw [he] at hsome
        simp at hsome
      · simp [Channel.check_server_closed, hc, he]
  · by_cases hc : ch.server_closed.is_closed = false
    · simp [Channel.check_server_closed, hc]
    · have hsome := hinv (by revert hc; cases ch.server_closed.is_closed <;> simp)
      rcases he : ch.server_closed.error with _ | e
      · rw [he] at hsome
        simp at hsome
      · simp [Channel.check_server_closed, hc, he]

/-- Witness for C9: the cell after a full `set_server_closed` on channel 1
is an observable state and `check_server_closed` neither panics nor
returns `Ok`. -/
theorem channel_C9_witness :
    (Channel.check_server_closed
        { id := 1, closed := false,
          server_closed := ChannelHandle.set_server_closed 1
            { reply_code := 406, reply_text := "PRECONDITION_FAILED",
              class_id := 0, method_id := 0 } {} }
      ≠ RustOutcome.panicked) ∧
    ((ChannelHandle.set_server_closed 1
        { reply_code := 406, reply_text := "PRECONDITION_FAILED",
          class_id := 0, method_id := 0 } {}).is_closed = true →
      (ChannelHandle.set_server_closed 1
        { reply_code := 406, reply_text := "PRECONDITION_FAILED",
          class_id := 0, method_id := 0 } {}).error.isSome) :=
  have h := channel_C9
    { id := 1, closed := false,
      server_closed := ChannelHandle.set_server_closed 1
        { reply_code := 406, reply_text := "PRECONDITION_FAILED",
          class_id := 0, method_id := 0 } {} }
    (ReachableSCE.done {} 1
      { reply_code := 406, reply_text := "PRECONDITION_FAILED",
        class_id := 0, method_id := 0 } ReachableSCE.init)
  ⟨h.2.1, h.1⟩

/-! ## Claim theorems: I/O loop handle -/

/-- C8: when the I/O loop thread has terminated — every send to the loop
fails and the reply receiver reports its sender dropped — `recv`, `send`,
`call_rpc`, `call` and `consume` all return `EventLoopDropped`. -/
theorem ioloop_C8 {T : Type} (env : IoLoopEnv) (hsend : env.send_ok = false)
    (hrecv : env.recv_result = none) (message : IoLoopMessage) (rpc : IoLoopRpc)
    (buf : List Nat) (tryFrom : ChannelRpcMethod → Except ErrorKind T) :
    IoLoopHandle.recv env = Except.error ErrorKind.eventLoopDropped ∧
    IoLoopHandle.send env message = Except.error ErrorKind.eventLoopDropped ∧
    IoLoopHandle.call_rpc env rpc tryFrom = Except.error ErrorKind.eventLoopDropped ∧
    IoLoopHandle.call env buf tryFrom = Except.error ErrorKind.eventLoopDropped ∧
    IoLoopHandle.consume env buf = Except.error ErrorKind.eventLoopDropped := by
  simp [IoLoopHandle.recv, IoLoopHandle.send, IoLoopHandle.call_rpc, IoLoopHandle.call,
    IoLoopHandle.consume, hsend, hrecv]

/-- Witness for C8 on the concrete terminated environment. -/
theorem ioloop_C8_witness :
    IoLoopHandle.recv { send_ok := false, recv_result := none }
        = Except.error ErrorKind.eventLoopDropped ∧
    IoLoopHandle.send { send_ok := false, recv_result := none }
        (IoLoopMessage.command 0) = Except.error ErrorKind.eventLoopDropped ∧
    IoLoopHandle.call_rpc { send_ok := false, recv_result := none }
        (IoLoopRpc.send [1]) (fun _ => Except.ok ())
        = Except.error ErrorKind.eventLoopDropped ∧
    IoLoopHandle.call { send_ok := false, recv_result := none } [1]
        (fun _ => Except.ok ()) = Except.error ErrorKind.eventLoopDropped ∧
    IoLoopHandle.consume { send_ok := false, recv_result := none } [1]
        = Except.error ErrorKind.eventLoopDropped :=
  ioloop_C8 { send_ok := false, recv_result := none } rfl rfl
    (IoLoopMessage.command 0) (IoLoopRpc.send [1]) [1] (fun _ => Except.ok ())

end Amiquip
